import Mathlib

/-
Verification of the application-layer core of the bacpypes repository
(src/py27/bacpypes/app.py) against its natural-language specification.

The embedding below is a shallow translation of the Python source:

* Python dicts become association lists over a decidable key type; Python
  mutates record objects in place, so records live in an arena
  (an association list from a stable natural-number index to the record),
  and all cache/registry dicts map keys to arena indices.  Dict keys used
  by the source are ints, Address objects and None, captured by `DKey`.
* Python exceptions become `Except`/`Option` results.
* The IOQController/IOCB machinery lives in iocb.py, which is not part of
  the excerpt; its per-destination queue semantics (`submit`/`resolve`) is
  modelled from the specification, as marked in the doc comments.
-/

set_option autoImplicit false

deriving instance DecidableEq for Except

namespace BacApp

/-- Address types of the Python `Address` class; the device cache accepts
only local-station and remote-station addresses as keys. -/
inductive AddrType
  | localStation
  | remoteStation
  | localBroadcast
  | remoteBroadcast
  | globalBroadcast
  | nullAddr
deriving DecidableEq

/-- Network address: an address type plus the remaining address payload,
abstracted to a natural number (two addresses are equal iff the Python
objects compare equal, i.e. structurally). -/
structure Address where
  addrType : AddrType
  addrBits : Nat
deriving DecidableEq

/-- Keys actually stored in the Python dict `DeviceInfoCache.cache`:
device-instance ints, Address objects, and (reachable only through
`update_device_info` writing `self.cache[info.deviceIdentifier]` with a
`None` field) the Python value `None` itself. -/
inductive DKey
  | dnone
  | did (i : Nat)
  | daddr (a : Address)
deriving DecidableEq

/-- Keys passed to `get_device_info`: an int, an Address, or any other
Python object (which the source rejects with a TypeError). -/
inductive GKey
  | gid (i : Nat)
  | gaddr (a : Address)
  | gother
deriving DecidableEq

/-- Errors raised by the cache operations (`TypeError` in the source; the
AttributeError arm models Python attribute access on `None`, which is
unreachable in the translated paths). -/
inductive CacheErr
  | typeError (msg : String)
  | attributeError (msg : String)
deriving DecidableEq

/-- Device information record, translated field by field from
`DeviceInfo.__init__` plus the `_cache_keys` bookkeeping attribute that
`get_device_info`/`update_device_info` attach to cached records. -/
structure DeviceInfo where
  deviceIdentifier : Option Nat
  address : Option Address
  maxApduLengthAccepted : Nat
  segmentationSupported : String
  vendorID : Option Nat
  maxNpduLength : Nat
  maxSegmentsAccepted : Option Nat
  cacheKeys : Option Nat × Option Address
deriving DecidableEq

/-- Defaults of `DeviceInfo.__init__`.  In Python `_cache_keys` is unset
until the cache assigns it; every record that reaches the cache operations
has it assigned, and we carry it as a plain field. -/
def blankDeviceInfo : DeviceInfo :=
  ⟨none, none, 1024, "noSegmentation", none, 1497, none, (none, none)⟩

/-- Record built in the address-miss branch of `get_device_info`
(source lines 134-139): a blank record with the address field set and
cache keys `(None, key)`. -/
def newDeviceInfo (key : Address) : DeviceInfo :=
  { blankDeviceInfo with address := some key, cacheKeys := (none, some key) }

/-- Contents of an IAmRequest as consumed by `add_device_info`:
`iAmDeviceIdentifier[1]` (the instance number), `pduSource`, and the three
capability fields that get copied onto the record. -/
structure IAmRequest where
  iAmDeviceInstance : Nat
  pduSource : Address
  maxAPDULengthAccepted : Nat
  segmentationSupported : String
  vendorID : Nat
deriving DecidableEq

/-- Association-list lookup, mirroring Python dict lookup. -/
def alookup {κ β : Type} [DecidableEq κ] (k : κ) : List (κ × β) → Option β
  | [] => none
  | p :: t => if p.1 = k then some p.2 else alookup k t

/-- Association-list key removal, mirroring Python `del d[k]` (dicts hold
at most one entry per key; removal of every matching entry keeps the
association list a faithful dict image). -/
def aerase {κ β : Type} [DecidableEq κ] (k : κ) : List (κ × β) → List (κ × β)
  | [] => []
  | p :: t => if p.1 = k then aerase k t else p :: aerase k t

/-- Association-list insertion/overwrite, mirroring Python `d[k] = v`. -/
def ainsert {κ β : Type} [DecidableEq κ] (k : κ) (v : β) (l : List (κ × β)) :
    List (κ × β) :=
  aerase k l ++ [(k, v)]

theorem alookup_append {κ β : Type} [DecidableEq κ] (k : κ)
    (l1 l2 : List (κ × β)) :
    alookup k (l1 ++ l2) =
      match alookup k l1 with
      | some v => some v
      | none => alookup k l2 := by
  induction l1 with
  | nil => simp [alookup]
  | cons p t ih =>
    by_cases h : p.1 = k
    · simp [alookup, h]
    · simp [alookup, h, ih]

theorem alookup_aerase {κ β : Type} [DecidableEq κ] (k e : κ)
    (l : List (κ × β)) :
    alookup k (aerase e l) = if k = e then none else alookup k l := by
  induction l with
  | nil => simp [alookup, aerase]
  | cons p t ih =>
    unfold aerase
    by_cases hpe : p.1 = e
    · rw [if_pos hpe, ih]
      by_cases hke : k = e
      · simp [hke]
      · have hpk : ¬ p.1 = k := by
          rw [hpe]
          intro hc
          exact hke hc.symm
        simp [alookup, hpk, hke]
    · rw [if_neg hpe]
      by_cases hpk : p.1 = k
      · have hke : ¬ k = e := by
          rw [← hpk]
          exact hpe
        simp [alookup, hpk, hke]
      · simp [alookup, hpk, ih]

theorem alookup_ainsert {κ β : Type} [DecidableEq κ] (k e : κ) (v : β)
    (l : List (κ × β)) :
    alookup k (ainsert e v l) = if k = e then some v else alookup k l := by
  unfold ainsert
  rw [alookup_append, alookup_aerase]
  by_cases h : k = e
  · simp [alookup, h]
  · have h2 : ¬ e = k := fun hc => h hc.symm
    rw [if_neg h, if_neg h]
    cases hl : alookup k l with
    | some w => rfl
    | none => simp [alookup, h2]

/-- State of a `DeviceInfoCache`: the record arena (Python object heap for
the records, indexed by creation order) and the cache dict mapping keys to
records. -/
structure DeviceInfoCache where
  nextIdx : Nat
  records : List (Nat × DeviceInfo)
  cache : List (DKey × Nat)
deriving DecidableEq

/-- Cache state produced by `DeviceInfoCache.__init__`. -/
def emptyCache : DeviceInfoCache := ⟨0, [], []⟩

/-- Read a record from the arena.  Every index handed out by the cache
operations resolves; the blank default is unreachable. -/
def getRec (s : DeviceInfoCache) (idx : Nat) : DeviceInfo :=
  (alookup idx s.records).getD blankDeviceInfo

/-- Overwrite a record in the arena (Python field assignment on the shared
record object). -/
def setRecord (s : DeviceInfoCache) (idx : Nat) (info : DeviceInfo) :
    DeviceInfoCache :=
  { s with records := ainsert idx info s.records }

/-- Translation of `DeviceInfoCache.has_device_info`. -/
def has_device_info (s : DeviceInfoCache) (key : DKey) : Bool :=
  (alookup key s.cache).isSome

/-- Translation of `DeviceInfoCache.get_device_info` (source lines
117-143): int keys are looked up without ever creating a record; station
addresses are looked up and, on a miss, a fresh blank record is created,
its address field set, its cache keys recorded as `(None, key)`, and the
cache indexes it under the address; any other key raises a TypeError, as
does a non-station address. -/
def get_device_info (s : DeviceInfoCache) (key : GKey) :
    Except CacheErr (Option Nat × DeviceInfoCache) :=
  match key with
  | GKey.gid i => Except.ok (alookup (DKey.did i) s.cache, s)
  | GKey.gother => Except.error (CacheErr.typeError "key must be integer or an address")
  | GKey.gaddr a =>
    if a.addrType = AddrType.localStation ∨ a.addrType = AddrType.remoteStation then
      match alookup (DKey.daddr a) s.cache with
      | some idx => Except.ok (some idx, s)
      | none =>
        Except.ok (some s.nextIdx,
          { nextIdx := s.nextIdx + 1
            records := ainsert s.nextIdx (newDeviceInfo a) s.records
            cache := ainsert (DKey.daddr a) s.nextIdx s.cache })
    else Except.error (CacheErr.typeError "address must be a local or remote station")

/-- Dict key written by `self.cache[info.deviceIdentifier] = info`
(the field may be the Python value `None`). -/
def optIdKey : Option Nat → DKey
  | none => DKey.dnone
  | some i => DKey.did i

/-- Dict key written by `self.cache[info.address] = info`. -/
def optAddrKey : Option Address → DKey
  | none => DKey.dnone
  | some a => DKey.daddr a

/-- Translation of `DeviceInfoCache.update_device_info` (source lines
145-173): for each of the two stored cache keys, only when the stored key
is not `None` and the record's current field differs does it delete the
old entry, insert the record under the current field value, and advance
the stored key; a stored key of `None` is left untouched.  Finally the
stored key pair is written back. -/
def update_device_info (s : DeviceInfoCache) (idx : Nat) : DeviceInfoCache :=
  match alookup idx s.records with
  | none => s
  | some info =>
    let step1 : List (DKey × Nat) × Option Nat :=
      match info.cacheKeys.1 with
      | some ci =>
        if info.deviceIdentifier ≠ some ci then
          (ainsert (optIdKey info.deviceIdentifier) idx (aerase (DKey.did ci) s.cache),
           info.deviceIdentifier)
        else (s.cache, info.cacheKeys.1)
      | none => (s.cache, info.cacheKeys.1)
    let step2 : List (DKey × Nat) × Option Address :=
      match info.cacheKeys.2 with
      | some ca =>
        if info.address ≠ some ca then
          (ainsert (optAddrKey info.address) idx (aerase (DKey.daddr ca) step1.1),
           info.address)
        else (step1.1, info.cacheKeys.2)
      | none => (step1.1, info.cacheKeys.2)
    { s with
      cache := step2.1
      records := ainsert idx { info with cacheKeys := (step1.2, step2.2) } s.records }

/-- Translation of `DeviceInfoCache.release_device_info` (source lines
175-184): delete the entries under both stored cache keys, each guarded by
the stored key being non-`None`; the record itself stays alive for any
owner still holding it. -/
def release_device_info (s : DeviceInfoCache) (idx : Nat) : DeviceInfoCache :=
  match alookup idx s.records with
  | none => s
  | some info =>
    let c1 :=
      match info.cacheKeys.1 with
      | some ci => aerase (DKey.did ci) s.cache
      | none => s.cache
    let c2 :=
      match info.cacheKeys.2 with
      | some ca => aerase (DKey.daddr ca) c1
      | none => c1
    { s with cache := c2 }

/-- Shared tail of `add_device_info` (source lines 109-115): copy the
three capability fields from the announcement onto the record, then run
`update_device_info`. -/
def finishAddDeviceInfo (s : DeviceInfoCache) (idx : Nat) (apdu : IAmRequest) :
    DeviceInfoCache :=
  let info := getRec s idx
  update_device_info
    (setRecord s idx
      { info with
        maxApduLengthAccepted := apdu.maxAPDULengthAccepted
        segmentationSupported := apdu.segmentationSupported
        vendorID := some apdu.vendorID }) idx

/-- Translation of `DeviceInfoCache.add_device_info` (source lines
87-115): look up by identifier; when found with the same address, return
unchanged; when found with a different address, overwrite the address
field; when not found, look up (create-if-missing) by source address and
set the identifier field; both non-trivial paths then run the shared field
copy and `update_device_info`. -/
def add_device_info (s : DeviceInfoCache) (apdu : IAmRequest) :
    Except CacheErr DeviceInfoCache :=
  match get_device_info s (GKey.gid apdu.iAmDeviceInstance) with
  | Except.error e => Except.error e
  | Except.ok (some idx, s0) =>
    let info := getRec s0 idx
    if info.address = some apdu.pduSource then Except.ok s0
    else
      Except.ok (finishAddDeviceInfo
        (setRecord s0 idx { info with address := some apdu.pduSource }) idx apdu)
  | Except.ok (none, s0) =>
    match get_device_info s0 (GKey.gaddr apdu.pduSource) with
    | Except.error e => Except.error e
    | Except.ok (some idx, s1) =>
      let info := getRec s1 idx
      Except.ok (finishAddDeviceInfo
        (setRecord s1 idx { info with deviceIdentifier := some apdu.iAmDeviceInstance })
        idx apdu)
    | Except.ok (none, _) =>
      Except.error (CacheErr.attributeError "get by address always returns a record")

/-- Kinds of protocol messages handled by the application layer, matching
the isinstance checks of the source (UnconfirmedRequestPDU,
ConfirmedRequestPDU, SimpleAckPDU, ComplexAckPDU, ErrorPDU, RejectPDU,
AbortPDU). -/
inductive APDUKind
  | unconfirmedRequest
  | confirmedRequest
  | simpleAck
  | complexAck
  | errorPDU
  | rejectPDU
  | abortPDU
deriving DecidableEq

/-- Abstract protocol message: its kind, a service-type key (the Python
class name used for handler dispatch), and the source/destination address
pair. -/
structure APDU where
  kind : APDUKind
  serviceKey : Nat
  pduSource : Address
  pduDestination : Address
deriving DecidableEq

/-- Pending-request handle built by `Application.request` for a confirmed
request: the wrapped message plus a sequence number giving the handle its
Python object identity. -/
structure IOCB where
  ioSeq : Nat
  args : APDU
deriving DecidableEq

/-- Resolution outcome of a pending request: `complete_io` with an ack, or
`abort_io` with an error/reject/abort message. -/
inductive Outcome
  | success (msg : APDU)
  | failure (msg : APDU)
deriving DecidableEq

/-- Modelled from the spec: per-destination controller state of the
IOQController base class of `ApplicationController` (iocb.py is not part
of the excerpt).  It holds the FIFO queue of waiting pending requests and
the at-most-one active request; `sent` is the trace of send-callback
invocations (`request_fn`, which forwards the wrapped message down the
stack) and `resolved` the trace of resolutions, both in order. -/
structure Controller where
  queue : List IOCB
  active : Option IOCB
  sent : List IOCB
  resolved : List (IOCB × Outcome)
deriving DecidableEq

/-- Controller state created by `ApplicationController.__init__`. -/
def emptyController : Controller := ⟨[], none, [], []⟩

/-- Modelled from the spec: `submit(pendingRequest)` (the source's
`controller.request_io(iocb)`) enqueues the request; if no request is
currently active, the front of the queue is promoted to active and the
send callback is invoked for it; otherwise it waits in FIFO order. -/
def submit (c : Controller) (r : IOCB) : Controller :=
  match c.active with
  | some _ => { c with queue := c.queue ++ [r] }
  | none =>
    match c.queue with
    | [] => { c with active := some r, sent := c.sent ++ [r] }
    | qh :: qt =>
      { c with queue := qt ++ [r], active := some qh, sent := c.sent ++ [qh] }

/-- Modelled from the spec: `resolve(outcome)` (the source's
`complete_io`/`abort_io` on the active request) records the outcome for
the active request; then, if the queue is non-empty, the next entry is
dequeued, made active, and the send callback is invoked for it; otherwise
the controller is left with no active request.  With no active request the
call is an error (`None` result). -/
def resolve (c : Controller) (o : Outcome) : Option Controller :=
  match c.active with
  | none => none
  | some r =>
    match c.queue with
    | [] => some { c with active := none, resolved := c.resolved ++ [(r, o)] }
    | next :: rest =>
      some { c with
        queue := rest
        active := some next
        sent := c.sent ++ [next]
        resolved := c.resolved ++ [(r, o)] }

/-- Application state touched by `request`/`confirmation`: the
per-destination controller registry, the trace of messages handed straight
to the lower layer (`super().request`), and the counter giving fresh
pending-request identities. -/
structure AppState where
  controllers : List (Address × Controller)
  lowerLayer : List APDU
  nextSeq : Nat
deriving DecidableEq

/-- Application state after `Application.__init__`. -/
def emptyApp : AppState := ⟨[], [], 0⟩

/-- Errors raised by `request`/`confirmation`: the source's `request`
falls off the end with `iocb` unbound for a message that is neither kind
(an UnboundLocalError), and `confirmation` raises RuntimeError for an
unclassifiable message or a resolution with no active request. -/
inductive AppErr
  | unboundLocal
  | runtimeError (msg : String)
deriving DecidableEq

/-- Translation of `Application.request` (source lines 357-393): an
unconfirmed request goes straight to the lower layer and no handle is
returned; a confirmed request is wrapped in an IOCB and submitted to the
destination's controller, creating and registering the controller if the
destination has none. -/
def Application.request (s : AppState) (apdu : APDU) :
    Except AppErr (Option IOCB × AppState) :=
  if apdu.kind = APDUKind.unconfirmedRequest then
    Except.ok (none, { s with lowerLayer := s.lowerLayer ++ [apdu] })
  else if apdu.kind = APDUKind.confirmedRequest then
    let iocb : IOCB := ⟨s.nextSeq, apdu⟩
    let controller :=
      match alookup apdu.pduDestination s.controllers with
      | some c => c
      | none => emptyController
    let c2 := submit controller iocb
    Except.ok (some iocb,
      { s with
        nextSeq := s.nextSeq + 1
        controllers := ainsert apdu.pduDestination c2 s.controllers })
  else Except.error AppErr.unboundLocal

/-- Classification used by `Application.confirmation` (source lines
408-413): acks complete the active request, error/reject/abort messages
abort it, anything else is an unrecognized APDU type. -/
def classifyConfirmation (apdu : APDU) : Option Outcome :=
  if apdu.kind = APDUKind.simpleAck ∨ apdu.kind = APDUKind.complexAck then
    some (Outcome.success apdu)
  else if apdu.kind = APDUKind.errorPDU ∨ apdu.kind = APDUKind.rejectPDU
      ∨ apdu.kind = APDUKind.abortPDU then
    some (Outcome.failure apdu)
  else none

/-- Translation of `Application.confirmation` (source lines 395-419): a
message from a source with no controller is silently dropped; otherwise
the active request is resolved with the classified outcome and then —
testing only `controller.ioQueue.queue` — the controller is deleted from
the registry exactly when its queue is empty, whether or not a promoted
next request is still active. -/
def Application.confirmation (s : AppState) (apdu : APDU) :
    Except AppErr AppState :=
  match alookup apdu.pduSource s.controllers with
  | none => Except.ok s
  | some controller =>
    match classifyConfirmation apdu with
    | none => Except.error (AppErr.runtimeError "unrecognized APDU type")
    | some o =>
      match resolve controller o with
      | none => Except.error (AppErr.runtimeError "no active request")
      | some c2 =>
        if c2.queue = [] then
          Except.ok { s with controllers := aerase apdu.pduSource s.controllers }
        else
          Except.ok { s with controllers := ainsert apdu.pduSource c2 s.controllers }

/-- Behavior of a registered service handler on the message it is given:
return normally, or raise one of the classified failures of the source's
error boundary (RejectException, AbortException, ExecutionError with an
error class and code, or any other exception). -/
inductive HandlerBehavior
  | normal
  | raiseReject (info : Nat)
  | raiseAbort (info : Nat)
  | raiseExecutionError (errClass : String) (errCode : String)
  | raiseOther
deriving DecidableEq

/-- Error response emitted through `self.response(...)`: the `Error`
constructor call with its class, code and the original request as
context. -/
structure ErrResponse where
  errClass : String
  errCode : String
  context : APDU
deriving DecidableEq

/-- Exceptions that escape `Application.indication`. -/
inductive IndErr
  | unrecognizedService (msg : String)
  | rejectEx (info : Nat)
  | abortEx (info : Nat)
deriving DecidableEq

/-- Translation of `Application.indication` (source lines 421-458),
parameterized by the registered handler set (the `do_...` helper methods,
keyed by the message's service type).  The result is the list of error
responses sent back through `self.response`.  A missing handler raises
UnrecognizedService for a confirmed request and silently returns
otherwise; reject- and abort-classified handler failures propagate
unchanged; an ExecutionError becomes one Error response with the error's
class and code and the request as context, but only for a confirmed
request; any other handler failure becomes one generic Error response
`(device, operationalProblem)`, again only for a confirmed request. -/
def Application.indication (handlers : Nat → Option HandlerBehavior)
    (apdu : APDU) : Except IndErr (List ErrResponse) :=
  match handlers apdu.serviceKey with
  | none =>
    if apdu.kind = APDUKind.confirmedRequest then
      Except.error (IndErr.unrecognizedService "no function for service")
    else Except.ok []
  | some HandlerBehavior.normal => Except.ok []
  | some (HandlerBehavior.raiseReject i) => Except.error (IndErr.rejectEx i)
  | some (HandlerBehavior.raiseAbort i) => Except.error (IndErr.abortEx i)
  | some (HandlerBehavior.raiseExecutionError ec ecode) =>
    if apdu.kind = APDUKind.confirmedRequest then
      Except.ok [⟨ec, ecode, apdu⟩]
    else Except.ok []
  | some HandlerBehavior.raiseOther =>
    if apdu.kind = APDUKind.confirmedRequest then
      Except.ok [⟨"device", "operationalProblem", apdu⟩]
    else Except.ok []

/-- Locally hosted application object: its name and its (optional)
identifier, a pair of object type and instance number. -/
structure BacObject where
  objectName : String
  objectIdentifier : Option (Nat × Nat)
deriving DecidableEq

/-- Local device object as seen by `add_object`: just its object-list
property. -/
structure LocalDeviceObject where
  objectList : List (Nat × Nat)
deriving DecidableEq

/-- Object-registry part of the application state: the two uniqueness
indexes and the optional local device; `localDevice = none` models an
Application constructed without a local device object, where the
`self.localDevice` attribute was never assigned. -/
structure ObjRegistry where
  objectName : List (String × BacObject)
  objectIdentifier : List ((Nat × Nat) × BacObject)
  localDevice : Option LocalDeviceObject
deriving DecidableEq

/-- Modelled from the spec: `ObjectIdentifier.maximum_instance_number`
(primitivedata.py is not part of the excerpt); only its existence as the
upper bound on instance numbers matters here. -/
def maximum_instance_number : Nat := 4194303

/-- Exceptions raised by `add_object`: the explicit RuntimeErrors of its
validation steps, and the AttributeError from reading the unassigned
`self.localDevice` attribute. -/
inductive AddObjectFailure
  | runtimeError (msg : String)
  | attributeError (attr : String)
deriving DecidableEq

/-- Translation of `Application.add_object` (source lines 264-296).  The
result pairs the registry state after the call with the exception raised,
if any: Python mutates `self` in place, so the state reached before an
exception persists.  Validation failures leave the registry unchanged;
after validation the object is inserted into both indexes, and only then
is `self.localDevice` read — which raises AttributeError when the
application was constructed without a local device, leaving both indexes
mutated. -/
def Application.add_object (s : ObjRegistry) (obj : BacObject) :
    ObjRegistry × Option AddObjectFailure :=
  if obj.objectName = "" then
    (s, some (AddObjectFailure.runtimeError "object name required"))
  else
    match obj.objectIdentifier with
    | none => (s, some (AddObjectFailure.runtimeError "object identifier required"))
    | some oid =>
      if maximum_instance_number ≤ oid.2 then
        (s, some (AddObjectFailure.runtimeError "invalid object identifier"))
      else if (alookup obj.objectName s.objectName).isSome then
        (s, some (AddObjectFailure.runtimeError "already an object with that name"))
      else if (alookup oid s.objectIdentifier).isSome then
        (s, some (AddObjectFailure.runtimeError "already an object with that identifier"))
      else
        let s1 := { s with
          objectName := ainsert obj.objectName obj s.objectName
          objectIdentifier := ainsert oid obj s.objectIdentifier }
        match s1.localDevice with
        | none => (s1, some (AddObjectFailure.attributeError "localDevice"))
        | some ld =>
          if ld.objectList = [] then (s1, none)
          else ({ s1 with localDevice := some ⟨ld.objectList ++ [oid]⟩ }, none)

/-- State built by the address-miss branch of `get_device_info` on state
`s` and address `a` (the literal written in that branch). -/
def createdState (s : DeviceInfoCache) (a : Address) : DeviceInfoCache :=
  { nextIdx := s.nextIdx + 1
    records := ainsert s.nextIdx (newDeviceInfo a) s.records
    cache := ainsert (DKey.daddr a) s.nextIdx s.cache }

/-- Local station address 1, used as the first announcement source. -/
def a1 : Address := ⟨AddrType.localStation, 1⟩

/-- Local station address 2, used as the changed announcement source. -/
def a2 : Address := ⟨AddrType.localStation, 2⟩

/-- Announcement for device instance 7 from address `a1`. -/
def iam1 : IAmRequest := ⟨7, a1, 480, "segmentedBoth", 99⟩

/-- Announcement for device instance 7 from address `a2`. -/
def iam2 : IAmRequest := ⟨7, a2, 480, "segmentedBoth", 99⟩

/-- Cache reached from the empty cache by ingesting `iam1` then `iam2`
(both ingests succeed; the fallback arms are not taken, as the first
conjunct of the theorem below certifies via `nextIdx = 2`). -/
def c1_state : DeviceInfoCache :=
  match add_device_info emptyCache iam1 with
  | Except.ok s1 =>
    match add_device_info s1 iam2 with
    | Except.ok s2 => s2
    | Except.error _ => emptyCache
  | Except.error _ => emptyCache

/-- Claim C1 (code evaluation at the failing input): after ingesting
`(7, a1)` then `(7, a2)` from an empty cache, lookup by identifier 7
returns `none` — not a record with address `a2` as the claim states —
because `update_device_info` never indexes a record whose stored
identifier key is `None`; instead `a1` still finds the first record
(which carries identifier 7 and address `a1`) and `a2` finds a second,
freshly created record. -/
theorem c1_ingest_rebind_fails :
    c1_state.nextIdx = 2
  ∧ get_device_info c1_state (GKey.gid 7) = Except.ok (none, c1_state)
  ∧ alookup (DKey.did 7) c1_state.cache = none
  ∧ alookup (DKey.daddr a1) c1_state.cache = some 0
  ∧ (getRec c1_state 0).deviceIdentifier = some 7
  ∧ (getRec c1_state 0).address = some a1
  ∧ alookup (DKey.daddr a2) c1_state.cache = some 1
  ∧ (getRec c1_state 1).deviceIdentifier = some 7
  ∧ (getRec c1_state 1).address = some a2 := by
  decide

/-- Record whose stored cache keys are `(None, a1)` while its identifier
field has been set to 5 — exactly the shape `add_device_info` produces
before calling `update_device_info`. -/
def c2_info : DeviceInfo :=
  { blankDeviceInfo with
    deviceIdentifier := some 5
    address := some a1
    cacheKeys := (none, some a1) }

/-- Cache holding `c2_info` at arena index 0, indexed under `a1` only. -/
def c2_state : DeviceInfoCache := ⟨1, [(0, c2_info)], [(DKey.daddr a1, 0)]⟩

/-- Claim C2 (code evaluation at the failing input): reindexing a record
whose stored identifier key is `None` but whose identifier field is now 5
leaves the cache unchanged — no entry is inserted under identifier 5 and
the stored keys remain `(None, a1)` instead of being updated to
`(5, a1)` — because the source guards each reindex arm with the stored
key being non-`None`. -/
theorem c2_null_key_not_reindexed :
    update_device_info c2_state 0 = c2_state
  ∧ alookup (DKey.did 5) (update_device_info c2_state 0).cache = none
  ∧ (getRec (update_device_info c2_state 0) 0).deviceIdentifier = some 5
  ∧ (getRec (update_device_info c2_state 0) 0).cacheKeys = (none, some a1) := by
  decide

/-- Claim C5: `get` with an identifier key returns the existing record or
none and never mutates the cache; `get` with a key that is neither an
identifier nor an address, or with a non-station address, fails with the
usage (TypeError/InvalidKey) error; `get` with a previously seen station
address returns the existing record unchanged; `get` with an unseen
station address creates exactly one new blank record with its address
field set and cache keys `(none, address)`, indexes it under the address,
and a second `get` of the same address returns the identical record with
no further creation. -/
theorem c5_get_device_info_spec (s : DeviceInfoCache) :
    (∀ i : Nat, get_device_info s (GKey.gid i) =
       Except.ok (alookup (DKey.did i) s.cache, s))
  ∧ (get_device_info s GKey.gother =
       Except.error (CacheErr.typeError "key must be integer or an address"))
  ∧ (∀ a : Address,
       ¬ (a.addrType = AddrType.localStation ∨ a.addrType = AddrType.remoteStation) →
       get_device_info s (GKey.gaddr a) =
         Except.error (CacheErr.typeError "address must be a local or remote station"))
  ∧ (∀ (a : Address) (idx : Nat),
       (a.addrType = AddrType.localStation ∨ a.addrType = AddrType.remoteStation) →
       alookup (DKey.daddr a) s.cache = some idx →
       get_device_info s (GKey.gaddr a) = Except.ok (some idx, s))
  ∧ (∀ a : Address,
       (a.addrType = AddrType.localStation ∨ a.addrType = AddrType.remoteStation) →
       alookup (DKey.daddr a) s.cache = none →
         (newDeviceInfo a).address = some a
       ∧ (newDeviceInfo a).deviceIdentifier = none
       ∧ (newDeviceInfo a).cacheKeys = (none, some a)
       ∧ (createdState s a).records = ainsert s.nextIdx (newDeviceInfo a) s.records
       ∧ get_device_info s (GKey.gaddr a) =
           Except.ok (some s.nextIdx, createdState s a)
       ∧ get_device_info (createdState s a) (GKey.gaddr a) =
           Except.ok (some s.nextIdx, createdState s a)) := by
  refine ⟨fun i => rfl, rfl, ?_, ?_, ?_⟩
  · intro a h
    simp only [get_device_info]
    rw [if_neg h]
  · intro a idx h hl
    simp only [get_device_info]
    rw [if_pos h, hl]
  · intro a h hl
    have hcl : alookup (DKey.daddr a) (createdState s a).cache = some s.nextIdx := by
      unfold createdState
      rw [alookup_ainsert]
      simp
    refine ⟨rfl, rfl, rfl, rfl, ?_, ?_⟩
    · simp only [get_device_info]
      rw [if_pos h, hl]
      rfl
    · simp only [get_device_info]
      rw [if_pos h, hcl]

/-- Claim C5 witness: the theorem instantiated at the empty cache and
address `a1`, plus the hit case on the state where `a1` has just been
created and the two error cases. -/
theorem c5_witness :
    get_device_info emptyCache (GKey.gid 3) =
      Except.ok (alookup (DKey.did 3) emptyCache.cache, emptyCache)
  ∧ get_device_info emptyCache GKey.gother =
      Except.error (CacheErr.typeError "key must be integer or an address")
  ∧ get_device_info emptyCache (GKey.gaddr ⟨AddrType.localBroadcast, 0⟩) =
      Except.error (CacheErr.typeError "address must be a local or remote station")
  ∧ get_device_info emptyCache (GKey.gaddr a1) =
      Except.ok (some emptyCache.nextIdx, createdState emptyCache a1)
  ∧ get_device_info (createdState emptyCache a1) (GKey.gaddr a1) =
      Except.ok (some 0, createdState emptyCache a1) := by
  refine ⟨(c5_get_device_info_spec emptyCache).1 3,
          (c5_get_device_info_spec emptyCache).2.1,
          (c5_get_device_info_spec emptyCache).2.2.1 ⟨AddrType.localBroadcast, 0⟩ (by decide),
          ((c5_get_device_info_spec emptyCache).2.2.2.2 a1 (Or.inl rfl) rfl).2.2.2.2.1,
          (c5_get_device_info_spec (createdState emptyCache a1)).2.2.2.1 a1 0
            (Or.inl rfl) (by decide)⟩

/-- Cache after deleting the entry under an optional identifier key (the
guarded first deletion of `release_device_info`). -/
def eraseOptId (k : Option Nat) (c : List (DKey × Nat)) : List (DKey × Nat) :=
  match k with
  | some ci => aerase (DKey.did ci) c
  | none => c

/-- Cache after deleting the entry under an optional address key (the
guarded second deletion of `release_device_info`). -/
def eraseOptAddr (k : Option Address) (c : List (DKey × Nat)) :
    List (DKey × Nat) :=
  match k with
  | some ca => aerase (DKey.daddr ca) c
  | none => c

theorem release_parts (s : DeviceInfoCache) (idx : Nat) (info : DeviceInfo)
    (hrec : alookup idx s.records = some info) :
    (release_device_info s idx).cache =
      eraseOptAddr info.cacheKeys.2 (eraseOptId info.cacheKeys.1 s.cache)
  ∧ (release_device_info s idx).nextIdx = s.nextIdx
  ∧ (release_device_info s idx).records = s.records := by
  unfold release_device_info
  rw [hrec]
  exact ⟨rfl, rfl, rfl⟩

theorem alookup_did_eraseOptAddr (ci : Nat) (k : Option Address)
    (c : List (DKey × Nat)) :
    alookup (DKey.did ci) (eraseOptAddr k c) = alookup (DKey.did ci) c := by
  cases k with
  | none => rfl
  | some ca =>
    show alookup (DKey.did ci) (aerase (DKey.daddr ca) c) = alookup (DKey.did ci) c
    rw [alookup_aerase]
    simp

theorem alookup_did_eraseOptId_self (ci : Nat) (c : List (DKey × Nat)) :
    alookup (DKey.did ci) (eraseOptId (some ci) c) = none := by
  show alookup (DKey.did ci) (aerase (DKey.did ci) c) = none
  rw [alookup_aerase]
  simp

theorem alookup_daddr_eraseOptAddr_self (ca : Address) (c : List (DKey × Nat)) :
    alookup (DKey.daddr ca) (eraseOptAddr (some ca) c) = none := by
  show alookup (DKey.daddr ca) (aerase (DKey.daddr ca) c) = none
  rw [alookup_aerase]
  simp

/-- Claim C6: releasing a record removes both of its current index
entries; afterwards lookup by the stored identifier key misses (`get`
returns none) and lookup by the stored address key misses — a subsequent
`get` of that address does not return the released record but creates a
fresh one (its arena index is the `nextIdx` counter, which the
well-formedness hypothesis separates from every live index, in particular
the released record's). -/
theorem c6_release_device_info_spec (s : DeviceInfoCache) (idx : Nat)
    (info : DeviceInfo) (hrec : alookup idx s.records = some info) :
    (∀ ci : Nat, info.cacheKeys.1 = some ci →
        alookup (DKey.did ci) (release_device_info s idx).cache = none
      ∧ get_device_info (release_device_info s idx) (GKey.gid ci) =
          Except.ok (none, release_device_info s idx))
  ∧ (∀ ca : Address, info.cacheKeys.2 = some ca →
        alookup (DKey.daddr ca) (release_device_info s idx).cache = none)
  ∧ (∀ ca : Address, info.cacheKeys.2 = some ca →
       (ca.addrType = AddrType.localStation ∨ ca.addrType = AddrType.remoteStation) →
       (∀ (j : Nat) (r : DeviceInfo), alookup j s.records = some r → j < s.nextIdx) →
         get_device_info (release_device_info s idx) (GKey.gaddr ca) =
           Except.ok (some s.nextIdx, createdState (release_device_info s idx) ca)
       ∧ (release_device_info s idx).nextIdx = s.nextIdx
       ∧ s.nextIdx ≠ idx) := by
  have hparts := release_parts s idx info hrec
  have hnext := hparts.2.1
  have hid : ∀ ci : Nat, info.cacheKeys.1 = some ci →
      alookup (DKey.did ci) (release_device_info s idx).cache = none := by
    intro ci h1
    rw [hparts.1, h1, alookup_did_eraseOptAddr, alookup_did_eraseOptId_self]
  have haddr : ∀ ca : Address, info.cacheKeys.2 = some ca →
      alookup (DKey.daddr ca) (release_device_info s idx).cache = none := by
    intro ca h2
    rw [hparts.1, h2, alookup_daddr_eraseOptAddr_self]
  refine ⟨?_, haddr, ?_⟩
  · intro ci h1
    refine ⟨hid ci h1, ?_⟩
    simp only [get_device_info]
    rw [hid ci h1]
  · intro ca h2 hst hwf
    have hmiss := haddr ca h2
    have hlt : idx < s.nextIdx := hwf idx info hrec
    refine ⟨?_, hnext, by omega⟩
    simp only [get_device_info]
    rw [if_pos hst, hmiss, ← hnext]
    rfl

/-- Record with both cache keys set, used to exercise `release`. -/
def c6_info : DeviceInfo :=
  { blankDeviceInfo with
    deviceIdentifier := some 5
    address := some a1
    cacheKeys := (some 5, some a1) }

/-- Cache holding `c6_info` at arena index 0, indexed under both keys. -/
def c6_state : DeviceInfoCache :=
  ⟨1, [(0, c6_info)], [(DKey.did 5, 0), (DKey.daddr a1, 0)]⟩

/-- Claim C6 witness: the theorem instantiated at `c6_state` and record
index 0, with all hypotheses discharged concretely. -/
theorem c6_witness :
    alookup (DKey.did 5) (release_device_info c6_state 0).cache = none
  ∧ get_device_info (release_device_info c6_state 0) (GKey.gid 5) =
      Except.ok (none, release_device_info c6_state 0)
  ∧ alookup (DKey.daddr a1) (release_device_info c6_state 0).cache = none
  ∧ get_device_info (release_device_info c6_state 0) (GKey.gaddr a1) =
      Except.ok (some c6_state.nextIdx, createdState (release_device_info c6_state 0) a1)
  ∧ c6_state.nextIdx ≠ 0 := by
  have hwf : ∀ (j : Nat) (r : DeviceInfo),
      alookup j c6_state.records = some r → j < c6_state.nextIdx := by
    intro j r hj
    by_cases h0 : (0 : Nat) = j
    · rw [← h0]
      decide
    · simp [c6_state, alookup, h0] at hj
  have h := c6_release_device_info_spec c6_state 0 c6_info rfl
  exact ⟨(h.1 5 rfl).1, (h.1 5 rfl).2, h.2.1 a1 rfl,
         (h.2.2 a1 rfl (Or.inl rfl) hwf).1,
         (h.2.2 a1 rfl (Or.inl rfl) hwf).2.2⟩

/-- Destination address used in the controller scenarios. -/
def addrD : Address := ⟨AddrType.localStation, 4⟩

/-- A throwaway peer-side address for message fields that do not matter. -/
def nullA : Address := ⟨AddrType.nullAddr, 0⟩

/-- First confirmed request to destination `addrD`. -/
def rq1 : APDU := ⟨APDUKind.confirmedRequest, 1, nullA, addrD⟩

/-- Second confirmed request to destination `addrD`. -/
def rq2 : APDU := ⟨APDUKind.confirmedRequest, 2, nullA, addrD⟩

/-- Simple acknowledgment arriving from `addrD`. -/
def ackD : APDU := ⟨APDUKind.simpleAck, 1, addrD, nullA⟩

/-- Application state reached from the fresh application by submitting
`rq1` then `rq2` (both requests succeed; the fallback arms are not
taken, as certified by the controller-shape conjuncts of the
counterexample below). -/
def c3_s2 : AppState :=
  match Application.request emptyApp rq1 with
  | Except.ok (_, s1) =>
    match Application.request s1 rq2 with
    | Except.ok (_, s2) => s2
    | Except.error _ => emptyApp
  | Except.error _ => emptyApp

/-- Controller registered for `addrD` after the two submissions. -/
def c3_ctrl : Controller := (alookup addrD c3_s2.controllers).getD emptyController

/-- That controller after the acknowledgment resolves the active request
(the queued second request is promoted to active and sent). -/
def c3_ctrl2 : Controller :=
  (resolve c3_ctrl (Outcome.success ackD)).getD emptyController

/-- Application state after processing the acknowledgment. -/
def c3_s3 : AppState :=
  match Application.confirmation c3_s2 ackD with
  | Except.ok s => s
  | Except.error _ => emptyApp

/-- Claim C3 counterexample: with `rq1` active and `rq2` queued for
destination `addrD`, the acknowledgment for `rq1` promotes `rq2` to
active (it is sent and unresolved, i.e. in flight), the queue becomes
empty, and `Application.confirmation` — which tests only the queue, not
the active slot — removes the controller from the registry.  The claim
states the controller is not removed while a promoted next request is
still active; here it is removed exactly in that situation. -/
theorem c3_counterexample :
    alookup ackD.pduSource c3_s2.controllers = some c3_ctrl
  ∧ c3_ctrl.active = some ⟨0, rq1⟩
  ∧ c3_ctrl.queue = [⟨1, rq2⟩]
  ∧ resolve c3_ctrl (Outcome.success ackD) = some c3_ctrl2
  ∧ c3_ctrl2.active = some ⟨1, rq2⟩
  ∧ c3_ctrl2.sent = [⟨0, rq1⟩, ⟨1, rq2⟩]
  ∧ c3_ctrl2.resolved = [(⟨0, rq1⟩, Outcome.success ackD)]
  ∧ c3_ctrl2.queue = []
  ∧ Application.confirmation c3_s2 ackD = Except.ok c3_s3
  ∧ alookup addrD c3_s3.controllers = none := by
  decide

/-- Claim C3 amended: after a confirmation resolves the destination
controller's active request, the controller is removed from the registry
exactly when its queue is empty — the active slot is not consulted, so a
promoted next request may still be active at removal time — and a
subsequent confirmed request for a destination absent from the registry
is submitted to a freshly created controller. -/
theorem c3_removal_queue_only (s : AppState) (apdu : APDU) (c : Controller)
    (hc : alookup apdu.pduSource s.controllers = some c)
    (o : Outcome) (hcl : classifyConfirmation apdu = some o)
    (c2 : Controller) (hr : resolve c o = some c2) :
    (c2.queue = [] →
        Application.confirmation s apdu =
          Except.ok { s with controllers := aerase apdu.pduSource s.controllers }
      ∧ alookup apdu.pduSource (aerase apdu.pduSource s.controllers) = none)
  ∧ (c2.queue ≠ [] →
        Application.confirmation s apdu =
          Except.ok { s with controllers := ainsert apdu.pduSource c2 s.controllers })
  ∧ (∀ (s3 : AppState) (rq : APDU),
        rq.kind = APDUKind.confirmedRequest →
        alookup rq.pduDestination s3.controllers = none →
        Application.request s3 rq =
          Except.ok (some ⟨s3.nextSeq, rq⟩,
            { s3 with
              nextSeq := s3.nextSeq + 1
              controllers := ainsert rq.pduDestination
                (submit emptyController ⟨s3.nextSeq, rq⟩) s3.controllers })) := by
  refine ⟨?_, ?_, ?_⟩
  · intro hq
    constructor
    · simp only [Application.confirmation, hc, hcl, hr]
      rw [if_pos hq]
    · rw [alookup_aerase]
      simp
  · intro hq
    simp only [Application.confirmation, hc, hcl, hr]
    rw [if_neg hq]
  · intro s3 rq hk hnone
    have hk1 : ¬ rq.kind = APDUKind.unconfirmedRequest := by
      rw [hk]
      intro hcon
      cases hcon
    simp only [Application.request]
    rw [if_neg hk1, if_pos hk, hnone]

/-- Claim C3 witness (for the amended theorem): applied to the concrete
two-request scenario, both the removal branch and the fresh-controller
branch, with every hypothesis discharged by evaluation. -/
theorem c3_removal_witness :
    Application.confirmation c3_s2 ackD =
      Except.ok { c3_s2 with controllers := aerase ackD.pduSource c3_s2.controllers }
  ∧ Application.request emptyApp rq1 =
      Except.ok (some ⟨emptyApp.nextSeq, rq1⟩,
        { emptyApp with
          nextSeq := emptyApp.nextSeq + 1
          controllers := ainsert rq1.pduDestination
            (submit emptyController ⟨emptyApp.nextSeq, rq1⟩) emptyApp.controllers }) := by
  have h := c3_removal_queue_only c3_s2 ackD c3_ctrl (by decide)
    (Outcome.success ackD) (by decide) c3_ctrl2 (by decide)
  exact ⟨(h.1 (by decide)).1, h.2.2 emptyApp rq1 rfl rfl⟩

/-- An interleaving step against one destination controller: a `submit`
of a pending request or a `resolve` of the active one. -/
inductive COp
  | submitOp (r : IOCB)
  | resolveOp (o : Outcome)
deriving DecidableEq

/-- Run a sequence of submit/resolve steps on a controller; `none` when
some `resolve` is called with no active request. -/
def runOps : Controller → List COp → Option Controller
  | c, [] => some c
  | c, COp.submitOp r :: rest => runOps (submit c r) rest
  | c, COp.resolveOp o :: rest =>
    match resolve c o with
    | none => none
    | some c2 => runOps c2 rest

/-- The requests submitted by a step sequence, in submission order. -/
def submittedOf : List COp → List IOCB
  | [] => []
  | COp.submitOp r :: rest => r :: submittedOf rest
  | COp.resolveOp _ :: rest => submittedOf rest

/-- The active request of a controller as a zero- or one-element list. -/
def activeList (c : Controller) : List IOCB :=
  match c.active with
  | none => []
  | some r => [r]

/-- Controller invariant: the send trace is exactly the resolved requests
in order followed by the at-most-one active request, and an idle
controller has an empty queue. -/
def ctrlInv (c : Controller) : Prop :=
  c.sent = c.resolved.map Prod.fst ++ activeList c
  ∧ (c.active = none → c.queue = [])

theorem submit_step (c : Controller) (r : IOCB) (h : ctrlInv c) :
    ctrlInv (submit c r)
  ∧ (submit c r).sent ++ (submit c r).queue = c.sent ++ c.queue ++ [r] := by
  cases ha : c.active with
  | some x =>
    refine ⟨⟨?_, ?_⟩, ?_⟩
    · simp only [submit, ha]
      rw [h.1]
      simp [activeList, ha]
    · simp only [submit, ha]
      intro hcon
      cases hcon
    · simp only [submit, ha]
      simp [List.append_assoc]
  | none =>
    have hq : c.queue = [] := h.2 ha
    refine ⟨⟨?_, ?_⟩, ?_⟩
    · simp only [submit, ha, hq]
      rw [h.1]
      simp [activeList, ha]
    · simp only [submit, ha, hq]
      intro hcon
      cases hcon
    · simp only [submit, ha, hq]
      simp

theorem resolve_step (c : Controller) (o : Outcome) (c2 : Controller)
    (hr : resolve c o = some c2) (h : ctrlInv c) :
    ctrlInv c2 ∧ c2.sent ++ c2.queue = c.sent ++ c.queue := by
  cases ha : c.active with
  | none => simp [resolve, ha] at hr
  | some r =>
    cases hqc : c.queue with
    | nil =>
      have hc2 : c2 = ⟨[], none, c.sent, c.resolved ++ [(r, o)]⟩ := by
        simp only [resolve, ha, hqc, Option.some.injEq] at hr
        exact hr.symm
      subst hc2
      refine ⟨⟨?_, fun _ => rfl⟩, ?_⟩
      · rw [h.1]
        simp [activeList, ha]
      · simp [hqc]
    | cons next rest =>
      have hc2 : c2 = ⟨rest, some next, c.sent ++ [next], c.resolved ++ [(r, o)]⟩ := by
        simp only [resolve, ha, hqc, Option.some.injEq] at hr
        exact hr.symm
      subst hc2
      refine ⟨⟨?_, ?_⟩, ?_⟩
      · rw [h.1]
        simp [activeList, ha]
      · intro hcon
        cases hcon
      · simp [hqc]

theorem runOps_inv (ops : List COp) (c0 c : Controller) (h0 : ctrlInv c0)
    (h : runOps c0 ops = some c) :
    ctrlInv c ∧ c.sent ++ c.queue = c0.sent ++ c0.queue ++ submittedOf ops := by
  induction ops generalizing c0 with
  | nil =>
    simp only [runOps] at h
    cases h
    refine ⟨h0, ?_⟩
    simp [submittedOf]
  | cons op rest ih =>
    cases op with
    | submitOp r =>
      simp only [runOps] at h
      have hs := submit_step c0 r h0
      have := ih (submit c0 r) hs.1 h
      refine ⟨this.1, ?_⟩
      rw [this.2, hs.2]
      simp [submittedOf, List.append_assoc]
    | resolveOp o =>
      simp only [runOps] at h
      cases hro : resolve c0 o with
      | none => rw [hro] at h; cases h
      | some c2 =>
        rw [hro] at h
        have hs := resolve_step c0 o c2 hro h0
        have := ih c2 hs.1 h
        refine ⟨this.1, ?_⟩
        rw [this.2, hs.2]
        simp [submittedOf]

/-- Claim C4 (spec-modelled controller semantics): for every interleaving
of submit and resolve steps on a destination's controller, starting from
the fresh controller, the requests handed to the send callback followed
by the still-queued ones are exactly the submitted requests in submission
order (so sends respect submission order), and the send trace is the
resolved requests in order followed by the at-most-one active request —
hence at most one sent-but-unresolved (in-flight) request exists at any
reachable state, and a request's send happens only after every earlier
submission has been resolved. -/
theorem c4_controller_serialization (ops : List COp) (c : Controller)
    (h : runOps emptyController ops = some c) :
    c.sent ++ c.queue = submittedOf ops
  ∧ c.sent = c.resolved.map Prod.fst ++ activeList c := by
  have h2 := runOps_inv ops emptyController c ⟨rfl, fun _ => rfl⟩ h
  refine ⟨?_, h2.1.1⟩
  have := h2.2
  simpa [emptyController] using this

/-- Concrete interleaving: submit two requests, resolve the first,
submit a third while the second is still in flight. -/
def c4_ops : List COp :=
  [COp.submitOp ⟨10, rq1⟩, COp.submitOp ⟨11, rq2⟩,
   COp.resolveOp (Outcome.success ackD), COp.submitOp ⟨12, rq1⟩]

/-- Controller reached by running `c4_ops` from the fresh controller. -/
def c4_end : Controller := (runOps emptyController c4_ops).getD emptyController

/-- Claim C4 witness: the theorem applied to the concrete interleaving
`c4_ops`. -/
theorem c4_witness :
    c4_end.sent ++ c4_end.queue = submittedOf c4_ops
  ∧ c4_end.sent = c4_end.resolved.map Prod.fst ++ activeList c4_end :=
  c4_controller_serialization c4_ops c4_end (by decide)

/-- Claim C7: when the registered handler for the message's service type
raises, a reject-classified failure propagates unchanged out of
`indication`, as does an abort-classified failure; an ExecutionError
carrying a class and code produces exactly one Error response with that
class and code and the original request as context for a confirmed
message and no response for any other message; and any other failure
produces exactly one generic `(device, operationalProblem)` Error
response for a confirmed message and no response otherwise. -/
theorem c7_indication_error_mapping (handlers : Nat → Option HandlerBehavior)
    (apdu : APDU) :
    (∀ i : Nat, handlers apdu.serviceKey = some (HandlerBehavior.raiseReject i) →
        Application.indication handlers apdu = Except.error (IndErr.rejectEx i))
  ∧ (∀ i : Nat, handlers apdu.serviceKey = some (HandlerBehavior.raiseAbort i) →
        Application.indication handlers apdu = Except.error (IndErr.abortEx i))
  ∧ (∀ ec ecode : String,
       handlers apdu.serviceKey = some (HandlerBehavior.raiseExecutionError ec ecode) →
         (apdu.kind = APDUKind.confirmedRequest →
            Application.indication handlers apdu = Except.ok [⟨ec, ecode, apdu⟩])
       ∧ (apdu.kind ≠ APDUKind.confirmedRequest →
            Application.indication handlers apdu = Except.ok []))
  ∧ (handlers apdu.serviceKey = some HandlerBehavior.raiseOther →
       (apdu.kind = APDUKind.confirmedRequest →
          Application.indication handlers apdu =
            Except.ok [⟨"device", "operationalProblem", apdu⟩])
     ∧ (apdu.kind ≠ APDUKind.confirmedRequest →
          Application.indication handlers apdu = Except.ok [])) := by
  refine ⟨?_, ?_, ?_, ?_⟩
  · intro i hh
    simp only [Application.indication, hh]
  · intro i hh
    simp only [Application.indication, hh]
  · intro ec ecode hh
    constructor
    · intro hk
      simp only [Application.indication, hh]
      rw [if_pos hk]
    · intro hk
      simp only [Application.indication, hh]
      rw [if_neg hk]
  · intro hh
    constructor
    · intro hk
      simp only [Application.indication, hh]
      rw [if_pos hk]
    · intro hk
      simp only [Application.indication, hh]
      rw [if_neg hk]

/-- Handler table used by the indication witnesses: service 1 raises an
ExecutionError, service 2 raises a reject, service 3 raises an abort,
service 4 raises an unclassified failure; everything else is
unregistered. -/
def wHandlers : Nat → Option HandlerBehavior := fun n =>
  if n = 1 then some (HandlerBehavior.raiseExecutionError "property" "writeAccessDenied")
  else if n = 2 then some (HandlerBehavior.raiseReject 5)
  else if n = 3 then some (HandlerBehavior.raiseAbort 6)
  else if n = 4 then some HandlerBehavior.raiseOther
  else none

/-- Confirmed request for service 1. -/
def mExec : APDU := ⟨APDUKind.confirmedRequest, 1, a1, a2⟩

/-- Unconfirmed request for service 1. -/
def mExecU : APDU := ⟨APDUKind.unconfirmedRequest, 1, a1, a2⟩

/-- Confirmed request for service 4. -/
def mOther : APDU := ⟨APDUKind.confirmedRequest, 4, a1, a2⟩

/-- Unconfirmed request for service 4. -/
def mOtherU : APDU := ⟨APDUKind.unconfirmedRequest, 4, a1, a2⟩

/-- Claim C7 witness: the theorem applied to concrete handlers and
messages for all six cases. -/
theorem c7_witness :
    Application.indication wHandlers mExec =
      Except.ok [⟨"property", "writeAccessDenied", mExec⟩]
  ∧ Application.indication wHandlers mExecU = Except.ok []
  ∧ Application.indication wHandlers ⟨APDUKind.confirmedRequest, 2, a1, a2⟩ =
      Except.error (IndErr.rejectEx 5)
  ∧ Application.indication wHandlers ⟨APDUKind.confirmedRequest, 3, a1, a2⟩ =
      Except.error (IndErr.abortEx 6)
  ∧ Application.indication wHandlers mOther =
      Except.ok [⟨"device", "operationalProblem", mOther⟩]
  ∧ Application.indication wHandlers mOtherU = Except.ok [] := by
  refine ⟨((c7_indication_error_mapping wHandlers mExec).2.2.1 "property"
            "writeAccessDenied" rfl).1 rfl,
          ((c7_indication_error_mapping wHandlers mExecU).2.2.1 "property"
            "writeAccessDenied" rfl).2 (by decide),
          (c7_indication_error_mapping wHandlers
            ⟨APDUKind.confirmedRequest, 2, a1, a2⟩).1 5 rfl,
          (c7_indication_error_mapping wHandlers
            ⟨APDUKind.confirmedRequest, 3, a1, a2⟩).2.1 6 rfl,
          ((c7_indication_error_mapping wHandlers mOther).2.2.2 rfl).1 rfl,
          ((c7_indication_error_mapping wHandlers mOtherU).2.2.2 rfl).2 (by decide)⟩

/-- Claim C8: when the message's service type has no registered handler,
`indication` raises UnrecognizedService for a confirmed request, and for
any other message (in particular an unconfirmed request) it raises
nothing and sends no response. -/
theorem c8_unrecognized_service (handlers : Nat → Option HandlerBehavior)
    (apdu : APDU) (h : handlers apdu.serviceKey = none) :
    (apdu.kind = APDUKind.confirmedRequest →
       Application.indication handlers apdu =
         Except.error (IndErr.unrecognizedService "no function for service"))
  ∧ (apdu.kind ≠ APDUKind.confirmedRequest →
       Application.indication handlers apdu = Except.ok []) := by
  constructor
  · intro hk
    simp only [Application.indication, h]
    rw [if_pos hk]
  · intro hk
    simp only [Application.indication, h]
    rw [if_neg hk]

/-- Claim C8 witness: the theorem applied to an unregistered service, for
a confirmed and for an unconfirmed message. -/
theorem c8_witness :
    Application.indication wHandlers ⟨APDUKind.confirmedRequest, 9, a1, a2⟩ =
      Except.error (IndErr.unrecognizedService "no function for service")
  ∧ Application.indication wHandlers ⟨APDUKind.unconfirmedRequest, 9, a1, a2⟩ =
      Except.ok [] :=
  ⟨(c8_unrecognized_service wHandlers ⟨APDUKind.confirmedRequest, 9, a1, a2⟩ rfl).1 rfl,
   (c8_unrecognized_service wHandlers ⟨APDUKind.unconfirmedRequest, 9, a1, a2⟩ rfl).2
     (by decide)⟩

/-- Claim C9: an unconfirmed message given to `request` is appended to
the lower-layer trace, no pending-request handle is returned, and the
controller registry is unchanged (no controller is created). -/
theorem c9_unconfirmed_passthrough (s : AppState) (apdu : APDU)
    (h : apdu.kind = APDUKind.unconfirmedRequest) :
    Application.request s apdu =
      Except.ok (none, { s with lowerLayer := s.lowerLayer ++ [apdu] })
  ∧ ({ s with lowerLayer := s.lowerLayer ++ [apdu] } : AppState).controllers
      = s.controllers := by
  constructor
  · simp only [Application.request]
    rw [if_pos h]
  · rfl

/-- Claim C9 witness: the theorem applied to the fresh application and a
concrete unconfirmed request. -/
theorem c9_witness :
    Application.request emptyApp mExecU =
      Except.ok (none, { emptyApp with lowerLayer := emptyApp.lowerLayer ++ [mExecU] })
  ∧ ({ emptyApp with lowerLayer := emptyApp.lowerLayer ++ [mExecU] } : AppState).controllers
      = emptyApp.controllers :=
  ⟨(c9_unconfirmed_passthrough emptyApp mExecU rfl).1,
   (c9_unconfirmed_passthrough emptyApp mExecU rfl).2⟩

/-- Claim C10: on an application constructed without a local device
object, `add_object` with a valid, non-colliding object first inserts the
object into both the name index and the identifier index and only then
fails with the AttributeError from reading the unassigned `localDevice`
attribute, leaving both indexes mutated — the registration is not atomic
on this error path. -/
theorem c10_add_object_not_atomic (s : ObjRegistry) (obj : BacObject)
    (oid : Nat × Nat)
    (hld : s.localDevice = none)
    (hname : obj.objectName ≠ "")
    (hoid : obj.objectIdentifier = some oid)
    (hinst : oid.2 < maximum_instance_number)
    (hn : alookup obj.objectName s.objectName = none)
    (hi : alookup oid s.objectIdentifier = none) :
    Application.add_object s obj =
      ({ s with
         objectName := ainsert obj.objectName obj s.objectName
         objectIdentifier := ainsert oid obj s.objectIdentifier },
       some (AddObjectFailure.attributeError "localDevice")) := by
  have hle : ¬ maximum_instance_number ≤ oid.2 := by omega
  simp only [Application.add_object, hoid]
  rw [if_neg hname, if_neg hle, if_neg (by rw [hn]; simp),
    if_neg (by rw [hi]; simp)]
  simp only [hld]

/-- Valid object used by the C10 witness. -/
def c10_obj : BacObject := ⟨"test-av", some (2, 1)⟩

/-- Claim C10 witness: the theorem applied to an empty registry with no
local device and a valid object. -/
theorem c10_witness :
    Application.add_object ⟨[], [], none⟩ c10_obj =
      ({ objectName := ainsert "test-av" c10_obj []
         objectIdentifier := ainsert (2, 1) c10_obj []
         localDevice := none },
       some (AddObjectFailure.attributeError "localDevice")) :=
  c10_add_object_not_atomic ⟨[], [], none⟩ c10_obj (2, 1) rfl (by decide) rfl
    (by decide) rfl rfl

end BacApp
